import Mathlib

/-!
Shallow embedding of `src/app.py` (energy_charts dashboard).

The program loads a CSV of hourly German electricity-market rows into a
pandas DataFrame and computes two aggregate tables, `calculate_monthly_stats`
and `calculate_capture_prices`, plus a yearly overview recomputed inside
`main`.  Numeric cells are pandas float64 values; here they are idealised as
exact rationals (no rounding), while the float special values that the
aggregations can actually produce — NaN (pandas' missing-value marker,
shown as null) and the signed infinities from division by zero — are kept
explicitly in the carrier type `PFloat`.  Division follows the IEEE rules on
those values (0/0 = NaN, x/0 = ±∞ for x ≠ 0, NaN propagates); `ℚ` has no
negative zero, which never arises in the embedded pipeline.

A pandas groupby table is embedded as its per-key view: `monthRows df k` is
the group of key `k`, and a table is the list of `(key, row)` pairs over the
distinct keys occurring in the data (`dedup` order; the claims do not depend
on the sorted key order pandas uses).
-/

namespace EnergyCharts

/-- A pandas float cell: an exact rational, a signed infinity, or NaN
(pandas' missing/null marker). -/
inductive PFloat where
  | val (q : ℚ)
  | posInf
  | negInf
  | nan
deriving DecidableEq, Repr

/-- IEEE-style division on `PFloat` cells (exact on rationals, no rounding):
NaN propagates, `a/0` is NaN for `a = 0` and `±∞` otherwise, `±∞/b` keeps
the sign of `b`, finite/∞ is 0, ∞/∞ is NaN. -/
def PFloat.div : PFloat → PFloat → PFloat
  | .nan, _ => .nan
  | _, .nan => .nan
  | .val a, .val b =>
      if b = 0 then (if a = 0 then .nan else if 0 < a then .posInf else .negInf)
      else .val (a / b)
  | .val _, .posInf => .val 0
  | .val _, .negInf => .val 0
  | .posInf, .val b => if 0 ≤ b then .posInf else .negInf
  | .negInf, .val b => if 0 ≤ b then .negInf else .posInf
  | .posInf, .posInf => .nan
  | .posInf, .negInf => .nan
  | .negInf, .posInf => .nan
  | .negInf, .negInf => .nan

/-- pandas `Series.mean()`: the arithmetic mean of the values, NaN on an
empty series. -/
def mean (l : List ℚ) : PFloat :=
  if l = [] then .nan else .val (l.sum / (l.length : ℚ))

/-- The parsed `datetime_utc` timestamp (hourly resolution). -/
structure Timestamp where
  year : Int
  month : Nat
  day : Nat
  hour : Nat
deriving DecidableEq, Repr

/-- One CSV row as read by `pd.read_csv` (timestamp already parsed; the
string-level ISO-8601 parsing is not modelled). -/
structure RawRow where
  datetime_utc : Timestamp
  residual_load_mw_avg : ℚ
  day_ahead_price_eur_mwh : ℚ
  solar_mw_avg : ℚ
deriving DecidableEq, Repr

/-- A calendar day, as `df['datetime'].dt.date` produces it. -/
abbrev Date := Int × Nat × Nat

/-- One row of the loaded DataFrame: the CSV columns plus the derived
`datetime`, `year`, `month`, `date` columns added by `load_data`. -/
structure HourlyRecord where
  datetime : Timestamp
  residual_load_mw_avg : ℚ
  day_ahead_price_eur_mwh : ℚ
  solar_mw_avg : ℚ
  year : Int
  month : Nat
  date : Date
deriving DecidableEq, Repr

/-- The per-row work of `load_data`: keep the CSV columns and derive
`year`, `month`, `date` from the parsed timestamp. -/
def load_row (r : RawRow) : HourlyRecord :=
  { datetime := r.datetime_utc
    residual_load_mw_avg := r.residual_load_mw_avg
    day_ahead_price_eur_mwh := r.day_ahead_price_eur_mwh
    solar_mw_avg := r.solar_mw_avg
    year := r.datetime_utc.year
    month := r.datetime_utc.month
    date := (r.datetime_utc.year, r.datetime_utc.month, r.datetime_utc.day) }

/-- `load_data` (`src/app.py` lines 14–23): `None` when the input file does
not exist, otherwise the parsed rows with the derived columns.  The file
system is passed as `Option (List RawRow)`: `none` is the absent file. -/
def load_data (file : Option (List RawRow)) : Option (List HourlyRecord) :=
  match file with
  | none => none
  | some rows => some (rows.map load_row)

/-- The `day_ahead_price_eur_mwh` column of a row. -/
def price (r : HourlyRecord) : ℚ := r.day_ahead_price_eur_mwh

/-- A `groupby(['year','month'])` key. -/
abbrev MonthKey := Int × Nat

/-- A `groupby(['year','month','date'])` key. -/
abbrev DayKey := Int × Nat × Date

def monthKey (r : HourlyRecord) : MonthKey := (r.year, r.month)

def dayKey (r : HourlyRecord) : DayKey := (r.year, r.month, r.date)

/-- The group of month key `k` in `df.groupby(['year','month'])`. -/
def monthRows (df : List HourlyRecord) (k : MonthKey) : List HourlyRecord :=
  df.filter (fun r => monthKey r = k)

/-- The group of day key `dk` in `df.groupby(['year','month','date'])`. -/
def dayRows (df : List HourlyRecord) (dk : DayKey) : List HourlyRecord :=
  df.filter (fun r => dayKey r = dk)

/-- The distinct month keys occurring in `df` (the index of both monthly
tables). -/
def monthKeys (df : List HourlyRecord) : List MonthKey :=
  (df.map monthKey).dedup

/-- The distinct day keys of month `k`: the days whose spreads
`monthly_spread` averages for that month. -/
def dayKeysOfMonth (df : List HourlyRecord) (k : MonthKey) : List DayKey :=
  ((monthRows df k).map dayKey).dedup

/-- `Series.sort_values()` on the price column: stable ascending sort. -/
def sort_values (l : List ℚ) : List ℚ :=
  l.insertionSort (· ≤ ·)

/-- `daily_spread` (`src/app.py` lines 28–31): `None` for a day group with
fewer than 8 rows, else mean of the last 4 of the ascending-sorted prices
minus mean of the first 4 (`.iloc[-4:].mean() - .iloc[:4].mean()`). -/
def daily_spread (g : List HourlyRecord) : Option ℚ :=
  let sorted_prices := sort_values (g.map price)
  if sorted_prices.length < 8 then none
  else
    let top := sorted_prices.drop (sorted_prices.length - 4)
    let bot := sorted_prices.take 4
    some (top.sum / (top.length : ℚ) - bot.sum / (bot.length : ℚ))

/-- The `spread` column of `daily_spreads` restricted to month `k`: one
entry per day of the month (`None` becomes NaN in the DataFrame). -/
def spread_table (df : List HourlyRecord) (k : MonthKey) : List (Option ℚ) :=
  (dayKeysOfMonth df k).map (fun dk => daily_spread (dayRows df dk))

/-- `monthly_spread` (`src/app.py` line 35): the groupby-mean of the
`spread` column, which skips NaN entries and is NaN when every entry of the
month is NaN. -/
def avg_spread (df : List HourlyRecord) (k : MonthKey) : PFloat :=
  let spreads := (spread_table df k).filterMap id
  if spreads = [] then .nan else .val (spreads.sum / (spreads.length : ℚ))

/-- One row of the `calculate_monthly_stats` output (after the merge of
`monthly_stats` with `monthly_spread`). -/
structure MonthlyStatsRow where
  avg_price : PFloat
  neg_hours : Nat
  avg_price_res_neg : PFloat
  avg_price_res_high : PFloat
  avg_spread : PFloat
deriving DecidableEq, Repr

/-- `monthly_agg` (`src/app.py` lines 38–48) merged with the month's
`avg_spread` (line 51): the row of month key `k`. -/
def monthly_stats_row (df : List HourlyRecord) (k : MonthKey) : MonthlyStatsRow :=
  let g := monthRows df k
  { avg_price := mean (g.map price)
    neg_hours := (g.filter (fun r => r.day_ahead_price_eur_mwh < 0)).length
    avg_price_res_neg := mean ((g.filter (fun r => r.residual_load_mw_avg < 0)).map price)
    avg_price_res_high := mean ((g.filter (fun r => r.residual_load_mw_avg > 60000)).map price)
    avg_spread := avg_spread df k }

/-- `calculate_monthly_stats` (`src/app.py` lines 25–52) as its per-key
view: one `(key, row)` pair per distinct month key of `df`. -/
def calculate_monthly_stats (df : List HourlyRecord) :
    List (MonthKey × MonthlyStatsRow) :=
  (monthKeys df).map (fun k => (k, monthly_stats_row df k))

/-- The derived column `df['solar_revenue'] = solar_mw_avg *
day_ahead_price_eur_mwh` (`src/app.py` line 57). -/
def solar_revenue (r : HourlyRecord) : ℚ :=
  r.solar_mw_avg * r.day_ahead_price_eur_mwh

/-- One row of the `calculate_capture_prices` output. -/
structure CaptureRow where
  solar_mw_avg : ℚ
  solar_revenue : ℚ
  solar_mw_pos : PFloat
  solar_rev_pos : PFloat
  pv_price : PFloat
  pv_price_pos : PFloat
  baseload_price : PFloat
  capture_rate : PFloat
deriving DecidableEq, Repr

/-- `calculate_capture_prices` (`src/app.py` lines 54–80), the row of month
key `k`.  A key with no `price ≥ 0` row is absent from the `df_pos` groupby,
so the left merge leaves its `solar_mw_pos` / `solar_rev_pos` cells NaN. -/
def capture_row (df : List HourlyRecord) (k : MonthKey) : CaptureRow :=
  let g := monthRows df k
  let g_pos := g.filter (fun r => r.day_ahead_price_eur_mwh ≥ 0)
  let solar_sum := (g.map (fun r => r.solar_mw_avg)).sum
  let rev_sum := (g.map solar_revenue).sum
  let solar_mw_pos : PFloat :=
    if g_pos = [] then .nan else .val ((g_pos.map (fun r => r.solar_mw_avg)).sum)
  let solar_rev_pos : PFloat :=
    if g_pos = [] then .nan else .val ((g_pos.map solar_revenue).sum)
  let pv_price := PFloat.div (.val rev_sum) (.val solar_sum)
  let baseload_price := mean (g.map price)
  { solar_mw_avg := solar_sum
    solar_revenue := rev_sum
    solar_mw_pos := solar_mw_pos
    solar_rev_pos := solar_rev_pos
    pv_price := pv_price
    pv_price_pos := PFloat.div solar_rev_pos solar_mw_pos
    baseload_price := baseload_price
    capture_rate := PFloat.div pv_price baseload_price }

/-- `calculate_capture_prices` as its per-key view. -/
def calculate_capture_prices (df : List HourlyRecord) :
    List (MonthKey × CaptureRow) :=
  (monthKeys df).map (fun k => (k, capture_row df k))

/-- The rows of year `y` (`df.groupby('year')`'s group). -/
def yearRows (df : List HourlyRecord) (y : Int) : List HourlyRecord :=
  df.filter (fun r => r.year = y)

/-- One row of the yearly overview table `y_res` built in `main`. -/
structure YearlyRow where
  pv_price : PFloat
  pv_price_pos : PFloat
  baseload_price : PFloat
  capture_rate : PFloat
deriving DecidableEq, Repr

/-- The yearly overview (`src/app.py` lines 121–137): `main` recomputes the
capture-price formulas per year from all hourly rows of the year. -/
def yearly_overview (df : List HourlyRecord) (y : Int) : YearlyRow :=
  let yearly_df := df.map (fun r => (r, solar_revenue r))
  let rows := yearly_df.filter (fun rr => rr.1.year = y)
  let yearly_pos := rows.filter (fun rr => rr.1.day_ahead_price_eur_mwh ≥ 0)
  let pv := PFloat.div (.val (rows.map (fun rr => rr.2)).sum)
                       (.val (rows.map (fun rr => rr.1.solar_mw_avg)).sum)
  let pvPos : PFloat :=
    if yearly_pos = [] then .nan
    else PFloat.div (.val (yearly_pos.map (fun rr => rr.2)).sum)
                    (.val (yearly_pos.map (fun rr => rr.1.solar_mw_avg)).sum)
  let base := mean (rows.map (fun rr => rr.1.day_ahead_price_eur_mwh))
  { pv_price := pv
    pv_price_pos := pvPos
    baseload_price := base
    capture_rate := PFloat.div pv base }

/-- The caller-visible DataFrame object: the loaded rows plus the optional
extra `solar_revenue` column (absent right after `load_data`). -/
structure DataFrame where
  rows : List HourlyRecord
  solar_revenue_col : Option (List ℚ)
deriving DecidableEq, Repr

/-- `df.copy()`: a fresh value equal to the source. -/
def DataFrame.copy (df : DataFrame) : DataFrame :=
  { rows := df.rows, solar_revenue_col := df.solar_revenue_col }

/-- `calculate_capture_prices` as a call on the caller's DataFrame object:
the first component is the state of the caller's object after the call.
The function copies `df` (line 56) and adds the `solar_revenue` column to
the copy only (line 57), so the caller's object is returned unchanged. -/
def calculate_capture_prices_call (df : DataFrame) :
    DataFrame × List (MonthKey × CaptureRow) :=
  let local_df := df.copy
  let local_df := { local_df with solar_revenue_col := some (local_df.rows.map solar_revenue) }
  (df, calculate_capture_prices local_df.rows)

/-- `calculate_monthly_stats` as a call on the caller's DataFrame object:
it only reads `df` (groupby/apply), so the caller's object is unchanged. -/
def calculate_monthly_stats_call (df : DataFrame) :
    DataFrame × List (MonthKey × MonthlyStatsRow) :=
  (df, calculate_monthly_stats df.rows)

/-- What `main` surfaces: either the single missing-file error message, or
the dashboard built from the two aggregate tables. -/
inductive MainOutcome where
  | dataNotFound (message : String)
  | dashboard (stats : List (MonthKey × MonthlyStatsRow))
              (capture : List (MonthKey × CaptureRow))
deriving DecidableEq, Repr

/-- The `st.error` message of `src/app.py` line 88. -/
def data_not_found_message : String :=
  "Data file `hourly_german_residual_load_and_prices_2024_present.csv` not found. Please run the fetch script."

/-- `main` (`src/app.py` lines 82–89 and the two table tabs): on a missing
file it shows the one error message and returns without aggregating;
otherwise it computes both aggregate tables from the loaded rows. -/
def main (file : Option (List RawRow)) : MainOutcome :=
  match load_data file with
  | none => .dataNotFound data_not_found_message
  | some df => .dashboard (calculate_monthly_stats df) (calculate_capture_prices df)

/-- Written from the spec's words (§4.2): per-day spread = (mean of the 4
highest prices of the day) − (mean of the 4 lowest), highest/lowest taken by
sorting the day's prices ascending and slicing the last/first 4. -/
def spread_spec (prices : List ℚ) : ℚ :=
  let asc := sort_values prices
  (asc.reverse.take 4).sum / 4 - (asc.take 4).sum / 4

/-- Written from the spec's words (§4.2): the month's `avg_spread` is the
arithmetic mean of the spreads of the days with ≥ 8 hourly rows, undefined
(NaN) when the month has no such day. -/
def avg_spread_spec (df : List HourlyRecord) (k : MonthKey) : PFloat :=
  let days := (dayKeysOfMonth df k).filter (fun dk => 8 ≤ (dayRows df dk).length)
  let spreads := days.map (fun dk => spread_spec ((dayRows df dk).map price))
  if spreads = [] then .nan else .val (spreads.sum / (spreads.length : ℚ))

/-- A concrete hourly record (helper for the example data sets). -/
def mkRec (y : Int) (m d h : Nat) (res p s : ℚ) : HourlyRecord :=
  { datetime := ⟨y, m, d, h⟩
    residual_load_mw_avg := res
    day_ahead_price_eur_mwh := p
    solar_mw_avg := s
    year := y
    month := m
    date := (y, m, d) }

/-- The spec's worked example: one day with the 8 hourly prices
[10,20,30,40,50,60,70,80]. -/
def exDay : List HourlyRecord :=
  [mkRec 2024 6 1 0 0 10 0, mkRec 2024 6 1 1 0 20 0,
   mkRec 2024 6 1 2 0 30 0, mkRec 2024 6 1 3 0 40 0,
   mkRec 2024 6 1 4 0 50 0, mkRec 2024 6 1 5 0 60 0,
   mkRec 2024 6 1 6 0 70 0, mkRec 2024 6 1 7 0 80 0]

/-- A month whose mean price and solar-weighted price are both 0. -/
def exA : List HourlyRecord :=
  [mkRec 2024 1 1 0 0 1 1, mkRec 2024 1 1 1 0 (-1) 1]

/-- A month with mean price 0 but nonzero solar-weighted price. -/
def exB : List HourlyRecord :=
  [mkRec 2024 1 1 0 0 5 2, mkRec 2024 1 1 1 0 (-5) 0]

/-- A month whose only row produces no solar output. -/
def exZ : List HourlyRecord :=
  [mkRec 2024 1 1 0 0 7 0]

/-- A year of two one-row months with different solar weights, so the
yearly capture price differs from the mean of the monthly ones. -/
def exYear : List HourlyRecord :=
  [mkRec 2024 1 1 0 0 0 1, mkRec 2024 2 1 0 0 40 3]

/-! ### Supporting lemmas -/

@[simp] theorem PFloat.val_div_val (a b : ℚ) :
    PFloat.div (.val a) (.val b) =
      if b = 0 then (if a = 0 then .nan else if 0 < a then .posInf else .negInf)
      else .val (a / b) := rfl

@[simp] theorem PFloat.nan_div (x : PFloat) : PFloat.div .nan x = .nan := by
  cases x <;> rfl

@[simp] theorem PFloat.div_nan (x : PFloat) : PFloat.div x .nan = .nan := by
  cases x <;> rfl

theorem mean_eq_val (l : List ℚ) (h : l ≠ []) :
    mean l = .val (l.sum / (l.length : ℚ)) := by
  simp [mean, h]

theorem mean_cons (a : ℚ) (l : List ℚ) :
    mean (a :: l) = .val ((a + l.sum) / ((l.length + 1 : ℕ) : ℚ)) := by
  rw [mean_eq_val _ (List.cons_ne_nil a l)]
  simp

theorem sort_values_length (l : List ℚ) : (sort_values l).length = l.length := by
  simp [sort_values, List.length_insertionSort]

theorem daily_spread_of_lt (g : List HourlyRecord) (h : g.length < 8) :
    daily_spread g = none := by
  have hlen : (sort_values (g.map price)).length = g.length := by
    rw [sort_values_length, List.length_map]
  simp only [daily_spread]
  rw [if_pos]
  rw [hlen]
  exact h

theorem daily_spread_of_le (g : List HourlyRecord) (h : 8 ≤ g.length) :
    daily_spread g = some (spread_spec (g.map price)) := by
  have hlen : (sort_values (g.map price)).length = g.length := by
    rw [sort_values_length, List.length_map]
  simp only [daily_spread, spread_spec]
  rw [if_neg (by omega)]
  have hd : ((sort_values (g.map price)).drop ((sort_values (g.map price)).length - 4)).length = 4 := by
    rw [List.length_drop]
    omega
  have ht : ((sort_values (g.map price)).take 4).length = 4 := by
    rw [List.length_take]
    omega
  have hsum : ((sort_values (g.map price)).reverse.take 4).sum
      = ((sort_values (g.map price)).drop ((sort_values (g.map price)).length - 4)).sum := by
    rw [List.take_reverse, List.sum_reverse]
  rw [hd, ht, hsum]
  norm_num

theorem spread_filterMap (df : List HourlyRecord) (L : List DayKey) :
    (L.map (fun dk => daily_spread (dayRows df dk))).filterMap id
      = (L.filter (fun dk => 8 ≤ (dayRows df dk).length)).map
          (fun dk => spread_spec ((dayRows df dk).map price)) := by
  induction L with
  | nil => simp
  | cons dk L ih =>
    by_cases h : 8 ≤ (dayRows df dk).length
    · rw [List.map_cons, List.filterMap_cons, daily_spread_of_le _ h,
        List.filter_cons_of_pos (by simpa using h), List.map_cons, ih]
      rfl
    · rw [List.map_cons, List.filterMap_cons, daily_spread_of_lt _ (by omega),
        List.filter_cons_of_neg (by simpa using h)]
      simpa using ih

/-! ### The claims -/

/-- C1: for every day group with at least 8 hourly rows, the daily spread
computed by the monthly-statistics aggregator equals the mean of the 4
highest `day_ahead_price_eur_mwh` values of the day minus the mean of the 4
lowest, taken by sorting the day's prices ascending and slicing the
last/first 4; in particular, for the 8 hourly prices [10,…,80] the daily
spread is 40. -/
theorem claim_C1 :
    (∀ (df : List HourlyRecord) (dk : DayKey),
        8 ≤ (dayRows df dk).length →
          daily_spread (dayRows df dk) = some (spread_spec ((dayRows df dk).map price)))
    ∧ daily_spread exDay = some 40 := by
  constructor
  · intro df dk h
    exact daily_spread_of_le _ h
  · norm_num [daily_spread, sort_values, exDay, mkRec, price,
      List.insertionSort, List.orderedInsert]

/-- C1 at a concrete input: the spec's worked example day, reached through
the day-grouping of the aggregator. -/
theorem claim_C1_witness :
    daily_spread (dayRows exDay (2024, 6, (2024, 6, 1)))
      = some (spread_spec ((dayRows exDay (2024, 6, (2024, 6, 1))).map price)) :=
  claim_C1.1 exDay (2024, 6, (2024, 6, 1)) (by decide)

/-- C2: for every (year, month) group, the monthly `avg_spread` is the
arithmetic mean of the defined daily spreads only: days with fewer than 8
hourly rows are excluded from numerator and divisor, and a month with no
defined daily spread has an undefined (NaN) `avg_spread`. -/
theorem claim_C2 (df : List HourlyRecord) (k : MonthKey) :
    avg_spread df k = avg_spread_spec df k := by
  simp only [avg_spread, avg_spread_spec, spread_table]
  rw [spread_filterMap]

/-- C3: for every (year, month) group, `avg_price_res_neg` and
`avg_price_res_high` are undefined (NaN, shown as null) — in particular
never 0 — when their residual-load filter selects no row of the group, and
the month's row is still produced in the output table. -/
theorem claim_C3 (df : List HourlyRecord) (k : MonthKey) :
    ((monthRows df k).filter (fun r => r.residual_load_mw_avg < 0) = [] →
        (monthly_stats_row df k).avg_price_res_neg = .nan
      ∧ (monthly_stats_row df k).avg_price_res_neg ≠ .val 0)
    ∧ ((monthRows df k).filter (fun r => r.residual_load_mw_avg > 60000) = [] →
        (monthly_stats_row df k).avg_price_res_high = .nan
      ∧ (monthly_stats_row df k).avg_price_res_high ≠ .val 0)
    ∧ (monthRows df k ≠ [] →
        (k, monthly_stats_row df k) ∈ calculate_monthly_stats df) := by
  refine ⟨fun h => ?_, fun h => ?_, fun h => ?_⟩
  · constructor
    · simp [monthly_stats_row, h, mean]
    · simp [monthly_stats_row, h, mean]
  · constructor
    · simp [monthly_stats_row, h, mean]
    · simp [monthly_stats_row, h, mean]
  · obtain ⟨r, hr⟩ := List.exists_mem_of_ne_nil _ h
    have hr' := List.mem_filter.1 hr
    have hk : monthKey r = k := by simpa using hr'.2
    have hmem : k ∈ monthKeys df :=
      List.mem_dedup.2 (hk ▸ List.mem_map_of_mem monthKey hr'.1)
    exact List.mem_map.2 ⟨k, hmem, rfl⟩

/-- C3 at a concrete input: a month with no negative-residual and no
high-residual hour. -/
theorem claim_C3_witness :
    (monthly_stats_row exDay (2024, 6)).avg_price_res_neg = .nan
    ∧ (monthly_stats_row exDay (2024, 6)).avg_price_res_high = .nan
    ∧ ((2024, 6), monthly_stats_row exDay (2024, 6)) ∈ calculate_monthly_stats exDay :=
  ⟨((claim_C3 exDay (2024, 6)).1 (by decide)).1,
   ((claim_C3 exDay (2024, 6)).2.1 (by decide)).1,
   (claim_C3 exDay (2024, 6)).2.2 (by decide)⟩

/-- C4: for every (year, month) group, `pv_price` is the sum of
`solar_mw_avg * day_ahead_price_eur_mwh` over the group's rows divided by
the sum of `solar_mw_avg`, and (for data satisfying the data model's
non-negative-solar invariant) it is undefined (NaN) when that denominator
is 0. -/
theorem claim_C4 (df : List HourlyRecord) (k : MonthKey) :
    (capture_row df k).pv_price
        = PFloat.div (.val ((monthRows df k).map solar_revenue).sum)
                     (.val ((monthRows df k).map (fun r => r.solar_mw_avg)).sum)
    ∧ ((∀ r ∈ monthRows df k, 0 ≤ r.solar_mw_avg) →
        ((monthRows df k).map (fun r => r.solar_mw_avg)).sum = 0 →
        (capture_row df k).pv_price = .nan) := by
  constructor
  · rfl
  · intro hnn hsum
    have h0 : ∀ r ∈ monthRows df k, r.solar_mw_avg = 0 := by
      intro r hr
      refine List.all_zero_of_le_zero_le_of_sum_eq_zero ?_ hsum
        (List.mem_map_of_mem _ hr)
      intro x hx
      obtain ⟨r', hr', rfl⟩ := List.mem_map.1 hx
      exact hnn r' hr'
    have hrev : ((monthRows df k).map solar_revenue).sum = 0 := by
      apply List.sum_eq_zero
      intro x hx
      obtain ⟨r', hr', rfl⟩ := List.mem_map.1 hx
      simp [solar_revenue, h0 r' hr']
    simp [capture_row, hrev, hsum]

/-- C4 at a concrete input: a month whose only row has zero solar output. -/
theorem claim_C4_witness : (capture_row exZ (2024, 1)).pv_price = .nan :=
  (claim_C4 exZ (2024, 1)).2 (by decide)
    (by norm_num [monthRows, monthKey, exZ, mkRec])

/-- C5: for every (year, month) group, `pv_price_pos` is the solar-revenue
sum over the rows with `day_ahead_price_eur_mwh ≥ 0` (price exactly 0
included) divided by the `solar_mw_avg` sum over those rows; it is
undefined (NaN) when the group has no such row, and (for non-negative
solar data) also when that restricted denominator is 0. -/
theorem claim_C5 (df : List HourlyRecord) (k : MonthKey) :
    ((monthRows df k).filter (fun r => r.day_ahead_price_eur_mwh ≥ 0) = [] →
        (capture_row df k).pv_price_pos = .nan)
    ∧ ((monthRows df k).filter (fun r => r.day_ahead_price_eur_mwh ≥ 0) ≠ [] →
        (capture_row df k).pv_price_pos
          = PFloat.div
              (.val (((monthRows df k).filter (fun r => r.day_ahead_price_eur_mwh ≥ 0)).map solar_revenue).sum)
              (.val (((monthRows df k).filter (fun r => r.day_ahead_price_eur_mwh ≥ 0)).map (fun r => r.solar_mw_avg)).sum))
    ∧ ((∀ r ∈ monthRows df k, 0 ≤ r.solar_mw_avg) →
        (((monthRows df k).filter (fun r => r.day_ahead_price_eur_mwh ≥ 0)).map (fun r => r.solar_mw_avg)).sum = 0 →
        (capture_row df k).pv_price_pos = .nan) := by
  refine ⟨fun h => ?_, fun h => ?_, fun hnn hsum => ?_⟩
  · simp [capture_row, h]
  · simp [capture_row, h]
  · by_cases hpos : (monthRows df k).filter (fun r => r.day_ahead_price_eur_mwh ≥ 0) = []
    · simp [capture_row, hpos]
    · have h0 : ∀ r ∈ (monthRows df k).filter (fun r => r.day_ahead_price_eur_mwh ≥ 0),
          r.solar_mw_avg = 0 := by
        intro r hr
        refine List.all_zero_of_le_zero_le_of_sum_eq_zero ?_ hsum
          (List.mem_map_of_mem _ hr)
        intro x hx
        obtain ⟨r', hr', rfl⟩ := List.mem_map.1 hx
        exact hnn r' (List.mem_filter.1 hr').1
      have hrev : (((monthRows df k).filter (fun r => r.day_ahead_price_eur_mwh ≥ 0)).map solar_revenue).sum = 0 := by
        apply List.sum_eq_zero
        intro x hx
        obtain ⟨r', hr', rfl⟩ := List.mem_map.1 hx
        simp [solar_revenue, h0 r' hr']
      simp [capture_row, hpos, hrev, hsum]

/-- C5 at a concrete input: the month's one row has non-negative price but
zero solar output. -/
theorem claim_C5_witness : (capture_row exZ (2024, 1)).pv_price_pos = .nan :=
  (claim_C5 exZ (2024, 1)).2.2 (by decide)
    (by norm_num [monthRows, monthKey, exZ, mkRec])

/-- C6 (amended): `capture_rate` is the `PFloat` quotient of `pv_price` by
`baseload_price`.  When `baseload_price` is 0 it is NaN (undefined) only if
`pv_price` is also 0, and `±∞` — a value, not null — if `pv_price` is
nonzero; and for finite cells, `capture_rate = 1.0` exactly when `pv_price`
equals `baseload_price` AND `baseload_price` is nonzero. -/
theorem claim_C6 (df : List HourlyRecord) (k : MonthKey) :
    (capture_row df k).capture_rate
        = PFloat.div (capture_row df k).pv_price (capture_row df k).baseload_price
    ∧ (∀ a : ℚ, (capture_row df k).pv_price = .val a →
        (capture_row df k).baseload_price = .val 0 →
          ((a = 0 → (capture_row df k).capture_rate = .nan)
           ∧ (0 < a → (capture_row df k).capture_rate = .posInf)
           ∧ (a < 0 → (capture_row df k).capture_rate = .negInf)))
    ∧ (∀ a b : ℚ, (capture_row df k).pv_price = .val a →
        (capture_row df k).baseload_price = .val b →
          ((capture_row df k).capture_rate = .val 1 ↔ a = b ∧ b ≠ 0)) := by
  have hrate : (capture_row df k).capture_rate
      = PFloat.div (capture_row df k).pv_price (capture_row df k).baseload_price := rfl
  refine ⟨hrate, fun a hp hb => ?_, fun a b hp hb => ?_⟩
  · rw [hrate, hp, hb]
    refine ⟨fun h0 => ?_, fun h0 => ?_, fun h0 => ?_⟩
    · simp [h0]
    · rw [PFloat.val_div_val, if_pos rfl, if_neg (ne_of_gt h0), if_pos h0]
    · rw [PFloat.val_div_val, if_pos rfl, if_neg (ne_of_lt h0), if_neg (lt_asymm h0)]
  · rw [hrate, hp, hb, PFloat.val_div_val]
    by_cases hb0 : b = 0
    · subst hb0
      by_cases ha0 : a = 0
      · simp [ha0]
      · rcases lt_or_gt_of_ne ha0 with h | h
        · simp [if_neg ha0, not_lt_of_lt h, ha0]
        · simp [if_neg ha0, h, ha0]
    · rw [if_neg hb0]
      constructor
      · intro h
        have : a / b = 1 := by simpa using h
        exact ⟨(div_eq_one_iff_eq hb0).1 this, hb0⟩
      · rintro ⟨rfl, -⟩
        simp [div_self hb0]

/-- C6 as frozen is false on the code: in month `exA` the solar-weighted
price equals the baseload price (both 0) yet `capture_rate` is NaN, not
1.0; and in month `exB` the baseload price is 0 yet `capture_rate` is `+∞`,
a value pandas does not treat as undefined/null. -/
theorem claim_C6_counterexample :
    ((capture_row exA (2024, 1)).pv_price = (capture_row exA (2024, 1)).baseload_price
      ∧ (capture_row exA (2024, 1)).capture_rate = .nan
      ∧ (capture_row exA (2024, 1)).capture_rate ≠ .val 1)
    ∧ ((capture_row exB (2024, 1)).baseload_price = .val 0
      ∧ (capture_row exB (2024, 1)).capture_rate = .posInf
      ∧ (capture_row exB (2024, 1)).capture_rate ≠ .nan) := by
  constructor
  · refine ⟨?_, ?_, ?_⟩ <;>
      (norm_num [capture_row, monthRows, monthKey, exA, mkRec, solar_revenue, mean_cons, price] <;>
        decide)
  · refine ⟨?_, ?_, ?_⟩ <;>
      (norm_num [capture_row, monthRows, monthKey, exB, mkRec, solar_revenue, mean_cons, price] <;>
        decide)

/-- C6 at a concrete input: a month whose capture rate is exactly 1.0
because its one hour makes the weighted and unweighted mean prices equal
and nonzero. -/
theorem claim_C6_witness : (capture_row exYear (2024, 2)).capture_rate = .val 1 :=
  ((claim_C6 exYear (2024, 2)).2.2 40 40
      (by norm_num [capture_row, monthRows, monthKey, exYear, mkRec, solar_revenue])
      (by norm_num [capture_row, monthRows, monthKey, exYear, mkRec, mean_cons, price])).2
    (by norm_num)

/-- C7: the yearly `pv_price` is recomputed as
`sum(solar_revenue) / sum(solar_mw_avg)` over all hourly rows of the year —
identical formula to the monthly one at year granularity — and it is not
the equally-weighted mean of the monthly `pv_price` values: on `exYear` the
monthly values are 0 and 40 (mean 20) while the yearly value is 30. -/
theorem claim_C7 :
    (∀ (df : List HourlyRecord) (y : Int),
        (yearly_overview df y).pv_price
          = PFloat.div (.val ((yearRows df y).map solar_revenue).sum)
                       (.val ((yearRows df y).map (fun r => r.solar_mw_avg)).sum))
    ∧ ((capture_row exYear (2024, 1)).pv_price = .val 0
      ∧ (capture_row exYear (2024, 2)).pv_price = .val 40
      ∧ (yearly_overview exYear 2024).pv_price = .val 30
      ∧ ((0 : ℚ) + 40) / 2 < 30) := by
  constructor
  · intro df y
    simp [yearly_overview, yearRows, List.filter_map, List.map_map, Function.comp_def]
  · refine ⟨?_, ?_, ?_, by norm_num⟩ <;>
      norm_num [capture_row, yearly_overview, monthRows, monthKey, yearRows,
        exYear, mkRec, solar_revenue, List.filter_map]

/-- C8: the loader returns the parsed record collection (CSV columns plus
the derived year/month/date fields) when the input file exists, and the
explicit absent signal `none` — not an empty collection, not an exception —
when it does not; on the absent signal `main` surfaces the single
user-facing error message and computes no aggregate table. -/
theorem claim_C8 :
    (∀ rows : List RawRow, load_data (some rows) = some (rows.map load_row))
    ∧ load_data none = none
    ∧ main none = .dataNotFound data_not_found_message
    ∧ (∀ rows : List RawRow,
        main (some rows)
          = .dashboard (calculate_monthly_stats (rows.map load_row))
                       (calculate_capture_prices (rows.map load_row))) :=
  ⟨fun _ => rfl, rfl, rfl, fun _ => rfl⟩

/-- C9: neither aggregator mutates the caller's DataFrame — after either
call the caller's rows and columns (including the still-absent
`solar_revenue` column) are unchanged, `calculate_capture_prices` having
added its revenue column to a copy only — and both results are pure
functions of the input rows. -/
theorem claim_C9 (df df' : DataFrame) :
    (calculate_monthly_stats_call df).1 = df
    ∧ (calculate_capture_prices_call df).1 = df
    ∧ ((calculate_capture_prices_call df).1).solar_revenue_col = df.solar_revenue_col
    ∧ (df.rows = df'.rows →
        (calculate_monthly_stats_call df).2 = (calculate_monthly_stats_call df').2
        ∧ (calculate_capture_prices_call df).2 = (calculate_capture_prices_call df').2) := by
  refine ⟨rfl, rfl, rfl, fun h => ⟨?_, ?_⟩⟩ <;>
    simp [calculate_monthly_stats_call, calculate_capture_prices_call, DataFrame.copy, h]

/-- C9 at a concrete input: the call leaves the caller's object without a
`solar_revenue` column, and a pre-existing column does not change either
result. -/
theorem claim_C9_witness :
    (calculate_capture_prices_call ⟨exDay, none⟩).1 = ⟨exDay, none⟩
    ∧ (calculate_monthly_stats_call ⟨exDay, none⟩).2
        = (calculate_monthly_stats_call ⟨exDay, some (exDay.map solar_revenue)⟩).2
    ∧ (calculate_capture_prices_call ⟨exDay, none⟩).2
        = (calculate_capture_prices_call ⟨exDay, some (exDay.map solar_revenue)⟩).2 :=
  ⟨(claim_C9 ⟨exDay, none⟩ ⟨exDay, some (exDay.map solar_revenue)⟩).2.1,
   ((claim_C9 ⟨exDay, none⟩ ⟨exDay, some (exDay.map solar_revenue)⟩).2.2.2 rfl).1,
   ((claim_C9 ⟨exDay, none⟩ ⟨exDay, some (exDay.map solar_revenue)⟩).2.2.2 rfl).2⟩

theorem list_sum_nonpos {l : List ℚ} (h : ∀ x ∈ l, x ≤ 0) : l.sum ≤ 0 := by
  induction l with
  | nil => simp
  | cons a l ih =>
    rw [List.sum_cons]
    have ha := h a (by simp)
    have hl := ih (fun x hx => h x (List.mem_cons_of_mem a hx))
    linarith

theorem sum_map_filter_split {α : Type} (l : List α) (p : α → Bool) (f : α → ℚ) :
    ((l.filter p).map f).sum + ((l.filter (fun x => !p x)).map f).sum
      = (l.map f).sum := by
  induction l with
  | nil => simp
  | cons a l ih =>
    cases hpa : p a <;> simp [hpa, List.sum_cons] <;> linarith

/-- C10: for every (year, month) group of non-negative-solar data in which
both capture prices are defined (both solar denominators positive),
restricting the solar-weighted average price to the non-negative-price
hours never lowers it: `pv_price ≤ pv_price_pos`. -/
theorem claim_C10 (df : List HourlyRecord) (k : MonthKey)
    (hnn : ∀ r ∈ monthRows df k, 0 ≤ r.solar_mw_avg)
    (hS : 0 < ((monthRows df k).map (fun r => r.solar_mw_avg)).sum)
    (hSpos : 0 < (((monthRows df k).filter (fun r => r.day_ahead_price_eur_mwh ≥ 0)).map (fun r => r.solar_mw_avg)).sum) :
    (capture_row df k).pv_price
        = .val (((monthRows df k).map solar_revenue).sum
                / ((monthRows df k).map (fun r => r.solar_mw_avg)).sum)
    ∧ (capture_row df k).pv_price_pos
        = .val ((((monthRows df k).filter (fun r => r.day_ahead_price_eur_mwh ≥ 0)).map solar_revenue).sum
                / (((monthRows df k).filter (fun r => r.day_ahead_price_eur_mwh ≥ 0)).map (fun r => r.solar_mw_avg)).sum)
    ∧ ((monthRows df k).map solar_revenue).sum
          / ((monthRows df k).map (fun r => r.solar_mw_avg)).sum
        ≤ (((monthRows df k).filter (fun r => r.day_ahead_price_eur_mwh ≥ 0)).map solar_revenue).sum
          / (((monthRows df k).filter (fun r => r.day_ahead_price_eur_mwh ≥ 0)).map (fun r => r.solar_mw_avg)).sum := by
  have hP : (monthRows df k).filter (fun r => r.day_ahead_price_eur_mwh ≥ 0) ≠ [] := by
    intro h
    rw [h] at hSpos
    simp at hSpos
  refine ⟨?_, ?_, ?_⟩
  · simp [capture_row, ne_of_gt hS]
  · simp [capture_row, hP, ne_of_gt hSpos]
  · rw [div_le_div_iff₀ hS hSpos]
    have hsplitS := sum_map_filter_split (monthRows df k)
      (fun r => r.day_ahead_price_eur_mwh ≥ 0) (fun r => r.solar_mw_avg)
    have hsplitR := sum_map_filter_split (monthRows df k)
      (fun r => r.day_ahead_price_eur_mwh ≥ 0) solar_revenue
    have hRpos : 0 ≤ (((monthRows df k).filter (fun r => r.day_ahead_price_eur_mwh ≥ 0)).map solar_revenue).sum := by
      apply List.sum_nonneg
      intro x hx
      obtain ⟨r, hr, rfl⟩ := List.mem_map.1 hx
      have hr' := List.mem_filter.1 hr
      have hp : (0 : ℚ) ≤ r.day_ahead_price_eur_mwh := by simpa using hr'.2
      exact mul_nonneg (hnn r hr'.1) hp
    have hRneg : (((monthRows df k).filter (fun r => !(r.day_ahead_price_eur_mwh ≥ 0 : Bool))).map solar_revenue).sum ≤ 0 := by
      apply list_sum_nonpos
      intro x hx
      obtain ⟨r, hr, rfl⟩ := List.mem_map.1 hx
      have hr' := List.mem_filter.1 hr
      have hp : r.day_ahead_price_eur_mwh < 0 := by
        have := hr'.2
        simp only [Bool.not_eq_true', decide_eq_false_iff_not, ge_iff_le, not_le] at this
        exact this
      have hs := hnn r hr'.1
      have : r.solar_mw_avg * r.day_ahead_price_eur_mwh ≤ 0 :=
        mul_nonpos_iff.2 (Or.inl ⟨hs, le_of_lt hp⟩)
      simpa [solar_revenue] using this
    have hSneg : 0 ≤ (((monthRows df k).filter (fun r => !(r.day_ahead_price_eur_mwh ≥ 0 : Bool))).map (fun r => r.solar_mw_avg)).sum := by
      apply List.sum_nonneg
      intro x hx
      obtain ⟨r, hr, rfl⟩ := List.mem_map.1 hx
      exact hnn r (List.mem_filter.1 hr).1
    nlinarith [mul_nonneg hRpos hSneg, mul_nonpos_iff.2 (Or.inl ⟨le_of_lt hSpos, hRneg⟩)]

/-- C10 at a concrete input: a month with one positive-price and one
negative-price hour of equal solar output; the unrestricted capture price
is 0, the restricted one is 1. -/
theorem claim_C10_witness :
    (capture_row exA (2024, 1)).pv_price = .val 0
    ∧ (capture_row exA (2024, 1)).pv_price_pos = .val 1 := by
  have h := claim_C10 exA (2024, 1) (by decide)
    (by norm_num [monthRows, monthKey, exA, mkRec])
    (by norm_num [monthRows, monthKey, exA, mkRec])
  refine ⟨h.1.trans ?_, h.2.1.trans ?_⟩ <;>
    norm_num [monthRows, monthKey, exA, mkRec, solar_revenue]

end EnergyCharts
